import Mathlib

/-!
Verification of the grim_rust telemetry shim
(src/grim_analysis/retail_capture/shim/lua_hook.c).

The shim interposes on the host runtime's lua_dofile entry point.  We give a
shallow embedding: the shim's own control flow and one-shot flags are
translated function-by-function from the C source, while the foreign Lua
runtime (global lookups, the effects of lua_strlibopen / lua_iolibopen /
lua_dostring / the real lua_dofile) is an abstract oracle (World, LuaEnv).
Every externally visible action of the shim (each log_event line, the
injection call, the readiness poll) is recorded as an Event in a trace, so
at-most-once and temporal-ordering properties become statements about
traces of runs over arbitrary call sequences.
-/

namespace GrimHook

/-- Abstract state of the embedded Lua interpreter: lua_getglobal returns a
lua_Object handle (0 encodes LUA_NOOBJECT/nil), lua_isfunction tests a
handle, lua_getstring reads a handle as a C string (none encodes NULL). -/
structure LuaEnv where
  getglobal : String → Nat
  isfunction : Nat → Bool
  getstring : Nat → Option String

/-- Which of the real_* function pointers were resolved by
resolve_real_symbols (true = non-NULL). -/
structure Resolved where
  dofile : Bool
  getglobal : Bool
  getstring : Bool
  isfunction : Bool
  istable : Bool
  strlibopen : Bool
  iolibopen : Bool
  dostring : Bool
  pushcclosure : Bool
  setglobal : Bool
deriving DecidableEq

/-- Result of calling into the real runtime for a script: the C return code
and the interpreter state afterwards. -/
structure DoRes where
  code : Int
  env : LuaEnv

/-- The foreign runtime as an oracle: which symbols resolved, and what each
companion entry point does to the interpreter state.  registerEff is the
combined effect of lua_pushcclosure + lua_setglobal in
register_native_file_helpers. -/
structure World where
  res : Resolved
  strlibopenEff : LuaEnv → LuaEnv
  iolibopenEff : LuaEnv → LuaEnv
  dostringEff : String → LuaEnv → DoRes
  dofileEff : Option String → LuaEnv → DoRes
  registerEff : LuaEnv → LuaEnv

/-- The shim's process-wide one-shot flags (all protected by
telemetry_mutex in the source). -/
structure Flags where
  injected : Bool
  requested : Bool
  waitLogged : Bool
  missingGlobalsLogged : Bool
  strlibopenAttempted : Bool
  stringPatchAttempted : Bool
  iolibopenAttempted : Bool
  nativeHelpersRegistered : Bool
deriving DecidableEq

/-- Initial flag state at process start: every one-shot flag is false. -/
def initFlags : Flags :=
  ⟨false, false, false, false, false, false, false, false⟩

def TARGET_SCRIPT : String := "_system.lua"
def TELEMETRY_SCRIPT : String := "mods/telemetry.lua"
def TELEMETRY_BOOTSTRAP_ERROR_GLOBAL : String := "__telemetry_bootstrap_error"
def TELEMETRY_STUB_REASON_GLOBAL : String := "__telemetry_stub_reason"

def IO_STATUS_SCRIPT : String :=
  "if type(io) == \"table\" and type(io.open) == \"function\" then\n  __telemetry_io_ready = \"ready\"\nelse\n  __telemetry_io_ready = \"missing\"\nend\n"

def STRING_LIB_PATCH_SCRIPT : String :=
  "if type(strbyte) ~= \"function\" and type(ascii) == \"function\" then strbyte = ascii end\nif type(strbyte) ~= \"function\" and type(string) == \"table\" and type(string.byte) == \"function\" then strbyte = string.byte end\nif type(strformat) ~= \"function\" and type(format) == \"function\" then strformat = format end\nif type(string) == \"table\" then\n  if type(string.sub) ~= \"function\" and type(strsub) == \"function\" then string.sub = strsub end\n  if type(string.byte) ~= \"function\" and type(strbyte) == \"function\" then string.byte = strbyte end\n  if type(string.len) ~= \"function\" and type(strlen) == \"function\" then string.len = strlen end\n  if type(string.format) ~= \"function\" and type(strformat) == \"function\" then string.format = strformat end\nend\n"

/-- One observable action of the shim: a log_event line, the readiness
poll, or the injection call itself. -/
inductive Event where
  | logNoRealImpl (label : String)
  | logCallResult (label : String) (filename : String) (result : Int)
  | logBootstrapError (message : String)
  | logStubReason (message : String)
  | logFirstDetection
  | logAlreadyInjected
  | logPendingInjection
  | logWaiting
  | logMissingGlobals (s b f : Bool)
  | strlibopenInvoked
  | logStrlibUnavailable
  | iolibopenInvoked
  | logIolibUnavailable
  | logIoScriptFailed (code : Int)
  | logIoReadiness (state : String)
  | logIoReadinessUnknown
  | logLegacyIoFns (o w c : Bool)
  | logDostringUnavailable
  | patchScriptRun
  | logPatchFailed (code : Int)
  | logPatched
  | logPostPatch (s b f : Bool)
  | logCannotRegister
  | logHelpersRegistered
  | logInjecting
  | injectCall (result : Int)
  | logInjectSkipped
  | logScriptError (code : Int)
  | logScriptExecuted
  | readinessPoll
deriving DecidableEq

/-- Classification of events, used to count occurrences of each one-shot
action in a trace. -/
inductive EClass where
  | inject
  | strlib
  | iolib
  | patch
  | register
  | wait
  | missing
  | poll
  | fwd
  | trig
  | other
deriving DecidableEq

def Event.cls : Event → EClass
  | .logNoRealImpl _ => .other
  | .logCallResult _ _ _ => .fwd
  | .logBootstrapError _ => .other
  | .logStubReason _ => .other
  | .logFirstDetection => .trig
  | .logAlreadyInjected => .trig
  | .logPendingInjection => .trig
  | .logWaiting => .wait
  | .logMissingGlobals _ _ _ => .missing
  | .strlibopenInvoked => .strlib
  | .logStrlibUnavailable => .strlib
  | .iolibopenInvoked => .iolib
  | .logIolibUnavailable => .iolib
  | .logIoScriptFailed _ => .other
  | .logIoReadiness _ => .other
  | .logIoReadinessUnknown => .other
  | .logLegacyIoFns _ _ _ => .other
  | .logDostringUnavailable => .patch
  | .patchScriptRun => .patch
  | .logPatchFailed _ => .other
  | .logPatched => .other
  | .logPostPatch _ _ _ => .other
  | .logCannotRegister => .register
  | .logHelpersRegistered => .register
  | .logInjecting => .other
  | .injectCall _ => .inject
  | .logInjectSkipped => .other
  | .logScriptError _ => .other
  | .logScriptExecuted => .other
  | .readinessPoll => .poll

/-- Number of events of a given class in a trace. -/
def cnt (c : EClass) (evs : List Event) : Nat :=
  evs.countP (fun e => e.cls == c)

/-- The classes that correspond to flag-guarded one-shot actions. -/
def trackedClasses : List EClass :=
  [.inject, .strlib, .iolib, .patch, .register, .wait, .missing]

/-- The one-shot flag guarding each tracked class of events. -/
def flagOf : EClass → Flags → Bool
  | .inject, s => s.injected
  | .strlib, s => s.strlibopenAttempted
  | .iolib, s => s.iolibopenAttempted
  | .patch, s => s.stringPatchAttempted
  | .register, s => s.nativeHelpersRegistered
  | .wait, s => s.waitLogged
  | .missing, s => s.missingGlobalsLogged
  | _, _ => false

/-- Accounting invariant tying each class of one-shot events to its guard
flag: events of a tracked class can only be emitted while flipping the flag
false → true, so flag-before + count ≤ flag-after. -/
def Acct (s s' : Flags) (evs : List Event) : Prop :=
  ∀ c ∈ trackedClasses, (flagOf c s).toNat + cnt c evs ≤ (flagOf c s').toNat

/-- Output of a state-machine step: new flags, new interpreter state, and
the events emitted. -/
structure StepOut where
  flags : Flags
  env : LuaEnv
  events : List Event

/-- Output of telemetry_runtime_ready. -/
structure ReadyOut where
  ready : Bool
  flags : Flags
  env : LuaEnv
  events : List Event

/-- Output of forward_lua_call: the caller-visible result plus the step
output. -/
structure FwdOut where
  result : Int
  flags : Flags
  env : LuaEnv
  events : List Event

/-- log_bootstrap_error: read the __telemetry_bootstrap_error global and
log it when present, non-nil and a non-empty string. -/
def log_bootstrap_error (w : World) (env : LuaEnv) : List Event :=
  if !w.res.getglobal || !w.res.getstring then []
  else
    let obj := env.getglobal TELEMETRY_BOOTSTRAP_ERROR_GLOBAL
    if obj ≠ 0 then
      match env.getstring obj with
      | some message => if message ≠ "" then [Event.logBootstrapError message] else []
      | none => []
    else []

/-- log_stub_reason: read the __telemetry_stub_reason global and log it
when present, non-nil and a non-empty string. -/
def log_stub_reason (w : World) (env : LuaEnv) : List Event :=
  if !w.res.getglobal || !w.res.getstring then []
  else
    let obj := env.getglobal TELEMETRY_STUB_REASON_GLOBAL
    if obj ≠ 0 then
      match env.getstring obj with
      | some message => if message ≠ "" then [Event.logStubReason message] else []
      | none => []
    else []

/-- basename_or_self: everything after the last '/' (strrchr), or the path
itself when it contains no '/'; NULL maps to NULL.  The suffix after the
last '/' is computed as the reversed longest '/'-free suffix. -/
def basename_or_self (path : Option String) : Option String :=
  match path with
  | none => none
  | some p =>
    some (String.mk ((p.data.reverse.takeWhile (fun ch => ch ≠ '/')).reverse))

/-- function_exists: true iff lua_getglobal and lua_isfunction resolved,
the global is non-nil, and lua_isfunction holds of it. -/
def function_exists (w : World) (env : LuaEnv) (name : String) : Bool :=
  if !w.res.getglobal || !w.res.isfunction then false
  else
    let object := env.getglobal name
    if object = 0 then false
    else env.isfunction object

/-- attempt_string_library_open: one-shot (strlibopen_attempted); invokes
lua_strlibopen when resolved, otherwise logs its absence. -/
def attempt_string_library_open (w : World) (s : Flags) (env : LuaEnv) : StepOut :=
  if s.strlibopenAttempted then ⟨s, env, []⟩
  else
    let s' := { s with strlibopenAttempted := true }
    if w.res.strlibopen then
      ⟨s', w.strlibopenEff env, [Event.strlibopenInvoked]⟩
    else
      ⟨s', env, [Event.logStrlibUnavailable]⟩

/-- The io-readiness probe block inside attempt_io_library_open: runs
IO_STATUS_SCRIPT and logs the resulting __telemetry_io_ready status,
provided lua_dostring, lua_getglobal and lua_getstring all resolved. -/
def io_status_probe (w : World) (env : LuaEnv) : LuaEnv × List Event :=
  if w.res.dostring && w.res.getglobal && w.res.getstring then
    let r := w.dostringEff IO_STATUS_SCRIPT env
    if r.code ≠ 0 then
      (r.env, [Event.logIoScriptFailed r.code] ++ log_bootstrap_error w r.env)
    else
      let state := r.env.getglobal "__telemetry_io_ready"
      let stateStr : Option String := if state ≠ 0 then r.env.getstring state else none
      match stateStr with
      | some sv =>
        if sv ≠ "" then (r.env, [Event.logIoReadiness sv])
        else (r.env, [Event.logIoReadinessUnknown])
      | none => (r.env, [Event.logIoReadinessUnknown])
  else (env, [])

/-- attempt_io_library_open: one-shot (iolibopen_attempted); invokes
lua_iolibopen when resolved, probes io readiness, and logs the legacy io
function availability. -/
def attempt_io_library_open (w : World) (s : Flags) (env : LuaEnv) : StepOut :=
  if s.iolibopenAttempted then ⟨s, env, []⟩
  else
    let s' := { s with iolibopenAttempted := true }
    if w.res.iolibopen then
      let env1 := w.iolibopenEff env
      let probe := io_status_probe w env1
      let env2 := probe.1
      let openfileReady := function_exists w env2 "openfile"
      let writeReady := function_exists w env2 "write"
      let closefileReady := function_exists w env2 "closefile"
      ⟨s', env2,
        [Event.iolibopenInvoked] ++ probe.2 ++
          [Event.logLegacyIoFns openfileReady writeReady closefileReady]⟩
    else
      ⟨s', env, [Event.logIolibUnavailable]⟩

/-- register_native_file_helpers: one-shot (native_file_helpers_registered);
pushes telemetry_native_write as a global closure when lua_pushcclosure and
lua_setglobal resolved. -/
def register_native_file_helpers (w : World) (s : Flags) (env : LuaEnv) : StepOut :=
  if s.nativeHelpersRegistered then ⟨s, env, []⟩
  else
    let s' := { s with nativeHelpersRegistered := true }
    if !w.res.pushcclosure || !w.res.setglobal then
      ⟨s', env, [Event.logCannotRegister]⟩
    else
      ⟨s', w.registerEff env, [Event.logHelpersRegistered]⟩

/-- attempt_string_library_patch: one-shot (string_library_patch_attempted);
runs STRING_LIB_PATCH_SCRIPT via lua_dostring; on success logs the
post-patch primitive availability and triggers helper registration. -/
def attempt_string_library_patch (w : World) (s : Flags) (env : LuaEnv) : StepOut :=
  if s.stringPatchAttempted then ⟨s, env, []⟩
  else
    let s' := { s with stringPatchAttempted := true }
    if !w.res.dostring then ⟨s', env, [Event.logDostringUnavailable]⟩
    else
      let r := w.dostringEff STRING_LIB_PATCH_SCRIPT env
      if r.code ≠ 0 then
        ⟨s', r.env, [Event.patchScriptRun, Event.logPatchFailed r.code] ++ log_bootstrap_error w r.env⟩
      else
        let subReady := function_exists w r.env "strsub"
        let byteReady := function_exists w r.env "strbyte"
        let formatReady := function_exists w r.env "strformat"
        let reg := register_native_file_helpers w s' r.env
        ⟨reg.flags, reg.env,
          [Event.patchScriptRun, Event.logPatched,
            Event.logPostPatch subReady byteReady formatReady] ++ reg.events⟩

/-- ensure_string_primitives: the three bootstrapping steps in order. -/
def ensure_string_primitives (w : World) (s : Flags) (env : LuaEnv) : StepOut :=
  let o1 := attempt_string_library_open w s env
  let o2 := attempt_io_library_open w o1.flags o1.env
  let o3 := attempt_string_library_patch w o2.flags o2.env
  ⟨o3.flags, o3.env, o1.events ++ o2.events ++ o3.events⟩

/-- The Required Global Set checked by telemetry_runtime_ready. -/
def requiredGlobals : List String := ["strsub", "strbyte", "strformat"]

/-- telemetry_runtime_ready: bootstrap, then check the three required
globals; when some are missing, log the missing-globals diagnostic at most
once (telemetry_missing_globals_logged). -/
def telemetry_runtime_ready (w : World) (s : Flags) (env : LuaEnv) : ReadyOut :=
  let o := ensure_string_primitives w s env
  let g0 := function_exists w o.env "strsub"
  let g1 := function_exists w o.env "strbyte"
  let g2 := function_exists w o.env "strformat"
  let globalsReady := g0 && g1 && g2
  if globalsReady then ⟨true, o.flags, o.env, o.events⟩
  else
    if !o.flags.missingGlobalsLogged then
      ⟨false, { o.flags with missingGlobalsLogged := true }, o.env,
        o.events ++ [Event.logMissingGlobals g0 g1 g2]⟩
    else ⟨false, o.flags, o.env, o.events⟩

/-- inject_telemetry: run the auxiliary script through the real lua_dofile
(skipped with a log line when it did not resolve); log the outcome and the
relevant diagnostic global. -/
def inject_telemetry (w : World) (env : LuaEnv) : LuaEnv × List Event :=
  if !w.res.dofile then (env, [Event.logInjectSkipped])
  else
    let r := w.dofileEff (some TELEMETRY_SCRIPT) env
    if r.code ≠ 0 then
      (r.env, [Event.injectCall r.code, Event.logScriptError r.code] ++ log_bootstrap_error w r.env)
    else
      (r.env, [Event.injectCall r.code, Event.logScriptExecuted] ++ log_stub_reason w r.env)

/-- attempt_telemetry_injection: under the lock, check requested &&
!injected; if so poll readiness (Event.readinessPoll marks the
telemetry_runtime_ready call); when unready log the waiting diagnostic at
most once; when ready, re-check the guard, flip injected, and perform the
injection. -/
def attempt_telemetry_injection (w : World) (s : Flags) (env : LuaEnv) : StepOut :=
  let shouldCheck := s.requested && !s.injected
  if !shouldCheck then ⟨s, env, []⟩
  else
    let r := telemetry_runtime_ready w s env
    if !r.ready then
      if !r.flags.waitLogged then
        ⟨{ r.flags with waitLogged := true }, r.env,
          Event.readinessPoll :: r.events ++ [Event.logWaiting]⟩
      else ⟨r.flags, r.env, Event.readinessPoll :: r.events⟩
    else
      if r.flags.requested && !r.flags.injected then
        let s2 := { r.flags with injected := true }
        let inj := inject_telemetry w r.env
        ⟨s2, inj.1, Event.readinessPoll :: r.events ++ [Event.logInjecting] ++ inj.2⟩
      else ⟨r.flags, r.env, Event.readinessPoll :: r.events⟩

/-- maybe_inject: record the trigger when the successful call's basename
matches TARGET_SCRIPT (logging first/repeat detection), then always hand
off to attempt_telemetry_injection. -/
def maybe_inject (w : World) (s : Flags) (env : LuaEnv)
    (filename : Option String) (originalResult : Int) : StepOut :=
  match filename with
  | none => attempt_telemetry_injection w s env
  | some f =>
    if originalResult ≠ 0 then attempt_telemetry_injection w s env
    else
      match basename_or_self (some f) with
      | none => attempt_telemetry_injection w s env
      | some bn =>
        if bn ≠ TARGET_SCRIPT then attempt_telemetry_injection w s env
        else
          let firstDetection := !s.requested
          let s1 := { s with requested := true }
          let alreadyInjected := s1.injected
          let pendingInjection := s1.requested && !s1.injected
          let detectEvents :=
            if firstDetection then [Event.logFirstDetection]
            else if alreadyInjected then [Event.logAlreadyInjected]
            else if pendingInjection then [Event.logPendingInjection]
            else []
          let o := attempt_telemetry_injection w s1 env
          ⟨o.flags, o.env, detectEvents ++ o.events⟩

/-- The outcome-logging block of forward_lua_call: log the call line for a
non-null, non-empty filename, consulting the bootstrap-error global when
the telemetry script itself failed. -/
def call_log_events (w : World) (label : String) (filename : Option String)
    (r : DoRes) : List Event :=
  match filename with
  | some f =>
    if f ≠ "" then
      [Event.logCallResult label f r.code] ++
        (if r.code ≠ 0 && f = TELEMETRY_SCRIPT then log_bootstrap_error w r.env else [])
    else []
  | none => []

/-- forward_lua_call: fail closed with -1 when the real entry point is
unresolved; otherwise call it, log the outcome, and hand the pair to
maybe_inject. -/
def forward_lua_call (w : World) (s : Flags) (env : LuaEnv)
    (filename : Option String) (label : String) : FwdOut :=
  if !w.res.dofile then ⟨-1, s, env, [Event.logNoRealImpl label]⟩
  else
    let r := w.dofileEff filename env
    let o := maybe_inject w s r.env filename r.code
    ⟨r.code, o.flags, o.env, call_log_events w label filename r ++ o.events⟩

/-- The exported lua_dofile interceptor (symbol resolution is baked into
the World, mirroring the pthread_once guard). -/
def lua_dofile (w : World) (s : Flags) (env : LuaEnv) (filename : Option String) : FwdOut :=
  forward_lua_call w s env filename "lua_dofile"

/-- One intercepted call as recorded for trace reasoning. -/
structure CallRec where
  filename : Option String
  result : Int
  events : List Event
deriving DecidableEq

/-- Run a sequence of intercepted lua_dofile calls, recording each call. -/
def runCalls (w : World) : Flags → LuaEnv → List (Option String) → List CallRec
  | _, _, [] => []
  | s, env, f :: rest =>
    let o := lua_dofile w s env f
    ⟨f, o.result, o.events⟩ :: runCalls w o.flags o.env rest

/-- The flat event trace of a run. -/
def hookTrace (w : World) : Flags → LuaEnv → List (Option String) → List Event
  | _, _, [] => []
  | s, env, f :: rest =>
    let o := lua_dofile w s env f
    o.events ++ hookTrace w o.flags o.env rest

/-- A call record that constitutes the trigger: a non-null filename whose
basename is TARGET_SCRIPT, on which the real call returned 0. -/
def TrigSuccess (rec : CallRec) : Prop :=
  ∃ fn, rec.filename = some fn ∧
    basename_or_self (some fn) = some TARGET_SCRIPT ∧ rec.result = 0

/-! ### The native file-write helper (telemetry_native_write) -/

/-- A Lua parameter slot as seen through lua_getparam: absent
(LUA_NOOBJECT) or an object that may or may not be a string. -/
inductive LuaParam where
  | noobject
  | obj (isstr : Bool) (val : String)
deriving DecidableEq

def luaIsString : LuaParam → Bool
  | .noobject => false
  | .obj b _ => b

def luaGetString : LuaParam → Option String
  | .noobject => none
  | .obj _ v => some v

/-- The C library calls made by telemetry_native_write, as an oracle:
whether fopen(path, mode) succeeds, how many bytes fwrite reports for the
given contents, and whether fclose succeeds. -/
structure FSModel where
  openOk : String → String → Bool
  written : String → String → String → Nat
  closeOk : String → String → Bool

/-- Observable outcome of telemetry_native_write: the number pushed via
lua_pushnumber, whether fopen was ever attempted, the (reported, required)
byte counts of the fwrite when one happened, and the fclose outcome when
one happened. -/
structure WriteOut where
  result : Nat
  openAttempted : Bool
  wrote : Option (Nat × Nat)
  closed : Option Bool
deriving DecidableEq

/-- The mode-defaulting logic of telemetry_native_write: use the mode
argument when present, string-typed and non-empty, else "a" (append). -/
def lua_mode_arg (modeObj : LuaParam) : String :=
  match modeObj with
  | .obj true m => if m ≠ "" then m else "a"
  | _ => "a"

/-- telemetry_native_write: validate the path/content parameters, default
the mode to "a", open/write/close, and push 1 iff the write transferred
the full length and the close succeeded, else 0. -/
def telemetry_native_write (fs : FSModel) (pathObj contentsObj modeObj : LuaParam) : WriteOut :=
  if pathObj = LuaParam.noobject || contentsObj = LuaParam.noobject then
    ⟨0, false, none, none⟩
  else if !luaIsString pathObj || !luaIsString contentsObj then
    ⟨0, false, none, none⟩
  else
    let mode := lua_mode_arg modeObj
    match luaGetString pathObj, luaGetString contentsObj with
    | some path, some contents =>
      if path = "" then ⟨0, false, none, none⟩
      else if fs.openOk path mode then
        let reported := fs.written path mode contents
        let required := contents.length
        let closeRes := fs.closeOk path mode
        ⟨if reported = required && closeRes then 1 else 0, true,
          some (reported, required), some closeRes⟩
      else ⟨0, true, none, none⟩
    | _, _ => ⟨0, false, none, none⟩

/-! ### Concrete witness data -/

/-- A concrete interpreter state in which exactly the three required
string primitives are defined and are functions. -/
def env0 : LuaEnv :=
  ⟨fun n => if n = "strsub" || n = "strbyte" || n = "strformat" then 1 else 0,
   fun o => o == 1,
   fun _ => none⟩

/-- All symbols resolved. -/
def resAll : Resolved :=
  ⟨true, true, true, true, true, true, true, true, true, true⟩

/-- A concrete world: everything resolved, every companion call succeeds
and leaves the interpreter state unchanged. -/
def w0 : World :=
  ⟨resAll, id, id, fun _ e => ⟨0, e⟩, fun _ e => ⟨0, e⟩, id⟩

/-- The same world with lua_getglobal unresolved. -/
def wNoGetglobal : World :=
  ⟨{ resAll with getglobal := false }, id, id, fun _ e => ⟨0, e⟩, fun _ e => ⟨0, e⟩, id⟩

/-- Flag state in which the trigger has been recorded but injection has
not yet happened. -/
def sReq : Flags := { initFlags with requested := true }

/-- A concrete file-system oracle: every open and close succeeds and every
write transfers the full content length. -/
def fs0 : FSModel :=
  ⟨fun _ _ => true, fun _ _ contents => contents.length, fun _ _ => true⟩

/-! ### Trace-counting basics -/

theorem cnt_nil (c : EClass) : cnt c [] = 0 := rfl

theorem cnt_append (c : EClass) (a b : List Event) :
    cnt c (a ++ b) = cnt c a + cnt c b :=
  List.countP_append _ _ _

theorem cnt_cons (c : EClass) (e : Event) (evs : List Event) :
    cnt c (e :: evs) = cnt c evs + (if e.cls == c then 1 else 0) :=
  List.countP_cons _ _ _

theorem cnt_eq_zero_of_cls {evs : List Event} {c : EClass}
    (h : ∀ e ∈ evs, e.cls ≠ c) : cnt c evs = 0 := by
  unfold cnt
  rw [List.countP_eq_zero]
  intro e he
  simpa using h e he

theorem acct_nil (s : Flags) : Acct s s [] := by
  intro c hc
  simp [cnt]

theorem acct_trans {s1 s2 s3 : Flags} {e1 e2 : List Event}
    (h1 : Acct s1 s2 e1) (h2 : Acct s2 s3 e2) : Acct s1 s3 (e1 ++ e2) := by
  intro c hc
  have k1 := h1 c hc
  have k2 := h2 c hc
  rw [cnt_append]
  omega

theorem log_bootstrap_error_cls (w : World) (env : LuaEnv) :
    ∀ e ∈ log_bootstrap_error w env, e.cls = EClass.other := by
  intro e he
  simp only [log_bootstrap_error] at he
  split at he
  · simp at he
  · split at he
    · split at he
      · split at he <;> simp_all [Event.cls]
      · simp at he
    · simp at he

theorem log_stub_reason_cls (w : World) (env : LuaEnv) :
    ∀ e ∈ log_stub_reason w env, e.cls = EClass.other := by
  intro e he
  simp only [log_stub_reason] at he
  split at he
  · simp at he
  · split at he
    · split at he
      · split at he <;> simp_all [Event.cls]
      · simp at he
    · simp at he

theorem cnt_log_bootstrap_error {c : EClass} (hc : c ≠ EClass.other)
    (w : World) (env : LuaEnv) : cnt c (log_bootstrap_error w env) = 0 :=
  cnt_eq_zero_of_cls (fun e he => by rw [log_bootstrap_error_cls w env e he]; exact fun h => hc h.symm)

theorem cnt_log_stub_reason {c : EClass} (hc : c ≠ EClass.other)
    (w : World) (env : LuaEnv) : cnt c (log_stub_reason w env) = 0 :=
  cnt_eq_zero_of_cls (fun e he => by rw [log_stub_reason_cls w env e he]; exact fun h => hc h.symm)

theorem cnt_eq_zero_of_cov {evs : List Event} {allowed : List EClass}
    (hcov : ∀ e ∈ evs, e.cls ∈ allowed) {c : EClass} (hc : c ∉ allowed) :
    cnt c evs = 0 :=
  cnt_eq_zero_of_cls (fun e he h => hc (h ▸ hcov e he))

/-! ### Bootstrapping components: event coverage, accounting, flag framing -/

theorem io_status_probe_cls (w : World) (env : LuaEnv) :
    ∀ e ∈ (io_status_probe w env).2, e.cls = EClass.other := by
  intro e he
  simp only [io_status_probe] at he
  split at he
  · split at he
    · rw [List.mem_append] at he
      rcases he with he | he
      · simp_all [Event.cls]
      · exact log_bootstrap_error_cls w _ e he
    · split at he
      · split at he <;> simp_all [Event.cls]
      · simp_all [Event.cls]
  · simp at he

theorem attempt_string_library_open_cls (w : World) (s : Flags) (env : LuaEnv) :
    ∀ e ∈ (attempt_string_library_open w s env).events, e.cls = EClass.strlib := by
  intro e he
  simp only [attempt_string_library_open] at he
  split at he
  · simp at he
  · split at he <;> simp_all [Event.cls]

theorem attempt_string_library_open_acct (w : World) (s : Flags) (env : LuaEnv) :
    Acct s (attempt_string_library_open w s env).flags
      (attempt_string_library_open w s env).events := by
  intro c hc
  unfold attempt_string_library_open
  split
  · simp [cnt]
  · split <;> fin_cases hc <;>
      simp_all [cnt_cons, cnt_nil, flagOf, Event.cls, beq_iff_eq]

theorem attempt_string_library_open_frame (w : World) (s : Flags) (env : LuaEnv) :
    (attempt_string_library_open w s env).flags.injected = s.injected ∧
    (attempt_string_library_open w s env).flags.requested = s.requested ∧
    (attempt_string_library_open w s env).flags.waitLogged = s.waitLogged := by
  unfold attempt_string_library_open
  split
  · exact ⟨rfl, rfl, rfl⟩
  · split <;> exact ⟨rfl, rfl, rfl⟩

theorem attempt_io_library_open_cls (w : World) (s : Flags) (env : LuaEnv) :
    ∀ e ∈ (attempt_io_library_open w s env).events,
      e.cls = EClass.iolib ∨ e.cls = EClass.other := by
  intro e he
  simp only [attempt_io_library_open] at he
  split at he
  · simp at he
  · split at he
    · rw [List.mem_append] at he
      rcases he with he | he
      · rw [List.mem_append] at he
        rcases he with he | he
        · simp_all [Event.cls]
        · exact Or.inr (io_status_probe_cls w _ e he)
      · simp_all [Event.cls]
    · simp_all [Event.cls]

theorem attempt_io_library_open_acct (w : World) (s : Flags) (env : LuaEnv) :
    Acct s (attempt_io_library_open w s env).flags
      (attempt_io_library_open w s env).events := by
  intro c hc
  have hco : c ≠ EClass.other := by fin_cases hc <;> decide
  have hzero : ∀ env', cnt c (io_status_probe w env').2 = 0 := fun env' =>
    cnt_eq_zero_of_cls (fun e he h => hco (h ▸ io_status_probe_cls w env' e he))
  unfold attempt_io_library_open
  split
  · simp [cnt]
  · split <;> fin_cases hc <;>
      simp_all [cnt_append, cnt_cons, cnt_nil, flagOf, Event.cls, beq_iff_eq]

theorem attempt_io_library_open_frame (w : World) (s : Flags) (env : LuaEnv) :
    (attempt_io_library_open w s env).flags.injected = s.injected ∧
    (attempt_io_library_open w s env).flags.requested = s.requested ∧
    (attempt_io_library_open w s env).flags.waitLogged = s.waitLogged := by
  unfold attempt_io_library_open
  split
  · exact ⟨rfl, rfl, rfl⟩
  · split <;> exact ⟨rfl, rfl, rfl⟩

theorem register_native_file_helpers_cls (w : World) (s : Flags) (env : LuaEnv) :
    ∀ e ∈ (register_native_file_helpers w s env).events, e.cls = EClass.register := by
  intro e he
  simp only [register_native_file_helpers] at he
  split at he
  · simp at he
  · split at he <;> simp_all [Event.cls]

theorem register_native_file_helpers_acct (w : World) (s : Flags) (env : LuaEnv) :
    Acct s (register_native_file_helpers w s env).flags
      (register_native_file_helpers w s env).events := by
  intro c hc
  unfold register_native_file_helpers
  split
  · simp [cnt]
  · split <;> fin_cases hc <;>
      simp_all [cnt_cons, cnt_nil, flagOf, Event.cls, beq_iff_eq]

theorem register_native_file_helpers_frame (w : World) (s : Flags) (env : LuaEnv) :
    (register_native_file_helpers w s env).flags.injected = s.injected ∧
    (register_native_file_helpers w s env).flags.requested = s.requested ∧
    (register_native_file_helpers w s env).flags.waitLogged = s.waitLogged := by
  unfold register_native_file_helpers
  split
  · exact ⟨rfl, rfl, rfl⟩
  · split <;> exact ⟨rfl, rfl, rfl⟩

theorem attempt_string_library_patch_cls (w : World) (s : Flags) (env : LuaEnv) :
    ∀ e ∈ (attempt_string_library_patch w s env).events,
      e.cls = EClass.patch ∨ e.cls = EClass.register ∨ e.cls = EClass.other := by
  intro e he
  simp only [attempt_string_library_patch] at he
  split at he
  · simp at he
  · split at he
    · simp_all [Event.cls]
    · split at he
      · rw [List.mem_append] at he
        rcases he with he | he
        · fin_cases he <;> simp [Event.cls]
        · exact Or.inr (Or.inr (log_bootstrap_error_cls w _ e he))
      · rw [List.mem_append] at he
        rcases he with he | he
        · fin_cases he <;> simp [Event.cls]
        · exact Or.inr (Or.inl (register_native_file_helpers_cls w _ _ e he))

theorem attempt_string_library_patch_acct (w : World) (s : Flags) (env : LuaEnv) :
    Acct s (attempt_string_library_patch w s env).flags
      (attempt_string_library_patch w s env).events := by
  intro c hc
  have hco : c ≠ EClass.other := by fin_cases hc <;> decide
  have hlbe : ∀ env', cnt c (log_bootstrap_error w env') = 0 := fun env' =>
    cnt_log_bootstrap_error hco w env'
  simp only [attempt_string_library_patch]
  split
  · simp [cnt]
  · split
    · fin_cases hc <;>
        simp_all [cnt_cons, cnt_nil, flagOf, Event.cls, beq_iff_eq]
    · split
      · fin_cases hc <;>
          simp_all [cnt_append, cnt_cons, cnt_nil, flagOf, Event.cls, beq_iff_eq]
      · have hreg := register_native_file_helpers_acct w
          { s with stringPatchAttempted := true } (w.dostringEff STRING_LIB_PATCH_SCRIPT env).env
        have hregc := hreg c hc
        fin_cases hc <;>
          simp_all [cnt_append, cnt_cons, cnt_nil, flagOf, Event.cls, beq_iff_eq] <;>
          omega

theorem attempt_string_library_patch_frame (w : World) (s : Flags) (env : LuaEnv) :
    (attempt_string_library_patch w s env).flags.injected = s.injected ∧
    (attempt_string_library_patch w s env).flags.requested = s.requested ∧
    (attempt_string_library_patch w s env).flags.waitLogged = s.waitLogged := by
  simp only [attempt_string_library_patch]
  split
  · exact ⟨rfl, rfl, rfl⟩
  · split
    · exact ⟨rfl, rfl, rfl⟩
    · split
      · exact ⟨rfl, rfl, rfl⟩
      · have hreg := register_native_file_helpers_frame w
          { s with stringPatchAttempted := true } (w.dostringEff STRING_LIB_PATCH_SCRIPT env).env
        simpa using hreg

theorem ensure_string_primitives_cls (w : World) (s : Flags) (env : LuaEnv) :
    ∀ e ∈ (ensure_string_primitives w s env).events,
      e.cls ∈ [EClass.strlib, EClass.iolib, EClass.patch, EClass.register, EClass.other] := by
  intro e he
  simp only [ensure_string_primitives, List.mem_append] at he
  rcases he with (he | he) | he
  · have := attempt_string_library_open_cls w s env e he
    simp [this]
  · have := attempt_io_library_open_cls w _ _ e he
    rcases this with h | h <;> simp [h]
  · have := attempt_string_library_patch_cls w _ _ e he
    rcases this with h | h | h <;> simp [h]

theorem ensure_string_primitives_acct (w : World) (s : Flags) (env : LuaEnv) :
    Acct s (ensure_string_primitives w s env).flags
      (ensure_string_primitives w s env).events := by
  intro c hc
  have k1 := attempt_string_library_open_acct w s env c hc
  have k2 := attempt_io_library_open_acct w (attempt_string_library_open w s env).flags
    (attempt_string_library_open w s env).env c hc
  have k3 := attempt_string_library_patch_acct w
    (attempt_io_library_open w (attempt_string_library_open w s env).flags
      (attempt_string_library_open w s env).env).flags
    (attempt_io_library_open w (attempt_string_library_open w s env).flags
      (attempt_string_library_open w s env).env).env c hc
  simp only [ensure_string_primitives, cnt_append]
  omega

theorem ensure_string_primitives_frame (w : World) (s : Flags) (env : LuaEnv) :
    (ensure_string_primitives w s env).flags.injected = s.injected ∧
    (ensure_string_primitives w s env).flags.requested = s.requested ∧
    (ensure_string_primitives w s env).flags.waitLogged = s.waitLogged := by
  obtain ⟨a1, b1, c1⟩ := attempt_string_library_open_frame w s env
  obtain ⟨a2, b2, c2⟩ := attempt_io_library_open_frame w
    (attempt_string_library_open w s env).flags (attempt_string_library_open w s env).env
  obtain ⟨a3, b3, c3⟩ := attempt_string_library_patch_frame w
    (attempt_io_library_open w (attempt_string_library_open w s env).flags
      (attempt_string_library_open w s env).env).flags
    (attempt_io_library_open w (attempt_string_library_open w s env).flags
      (attempt_string_library_open w s env).env).env
  refine ⟨?_, ?_, ?_⟩
  · simp only [ensure_string_primitives]
    rw [a3, a2, a1]
  · simp only [ensure_string_primitives]
    rw [b3, b2, b1]
  · simp only [ensure_string_primitives]
    rw [c3, c2, c1]

theorem telemetry_runtime_ready_env (w : World) (s : Flags) (env : LuaEnv) :
    (telemetry_runtime_ready w s env).env = (ensure_string_primitives w s env).env := by
  simp only [telemetry_runtime_ready]
  split
  · rfl
  · split <;> rfl

theorem telemetry_runtime_ready_ready (w : World) (s : Flags) (env : LuaEnv) :
    (telemetry_runtime_ready w s env).ready =
      (function_exists w (ensure_string_primitives w s env).env "strsub" &&
        function_exists w (ensure_string_primitives w s env).env "strbyte" &&
        function_exists w (ensure_string_primitives w s env).env "strformat") := by
  simp only [telemetry_runtime_ready]
  split
  · simp_all
  · split <;> simp_all

theorem telemetry_runtime_ready_cls (w : World) (s : Flags) (env : LuaEnv) :
    ∀ e ∈ (telemetry_runtime_ready w s env).events,
      e.cls ∈ [EClass.strlib, EClass.iolib, EClass.patch, EClass.register,
        EClass.other, EClass.missing] := by
  intro e he
  simp only [telemetry_runtime_ready] at he
  have hens : ∀ e ∈ (ensure_string_primitives w s env).events,
      e.cls ∈ [EClass.strlib, EClass.iolib, EClass.patch, EClass.register,
        EClass.other, EClass.missing] := by
    intro e2 he2
    have := ensure_string_primitives_cls w s env e2 he2
    simp at this ⊢
    tauto
  split at he
  · exact hens e he
  · split at he
    · rw [List.mem_append] at he
      rcases he with he | he
      · exact hens e he
      · fin_cases he
        simp [Event.cls]
    · exact hens e he

theorem telemetry_runtime_ready_acct (w : World) (s : Flags) (env : LuaEnv) :
    Acct s (telemetry_runtime_ready w s env).flags
      (telemetry_runtime_ready w s env).events := by
  intro c hc
  have hens := ensure_string_primitives_acct w s env c hc
  simp only [telemetry_runtime_ready]
  split
  · exact hens
  · split
    · fin_cases hc <;>
        simp_all [cnt_append, cnt_cons, cnt_nil, flagOf, Event.cls, beq_iff_eq] <;>
        omega
    · exact hens

theorem telemetry_runtime_ready_frame (w : World) (s : Flags) (env : LuaEnv) :
    (telemetry_runtime_ready w s env).flags.injected = s.injected ∧
    (telemetry_runtime_ready w s env).flags.requested = s.requested ∧
    (telemetry_runtime_ready w s env).flags.waitLogged = s.waitLogged := by
  obtain ⟨a, b, c⟩ := ensure_string_primitives_frame w s env
  simp only [telemetry_runtime_ready]
  split
  · exact ⟨a, b, c⟩
  · split
    · exact ⟨by simpa using a, by simpa using b, by simpa using c⟩
    · exact ⟨a, b, c⟩

theorem inject_telemetry_cls (w : World) (env : LuaEnv) :
    ∀ e ∈ (inject_telemetry w env).2, e.cls = EClass.inject ∨ e.cls = EClass.other := by
  intro e he
  simp only [inject_telemetry] at he
  split at he
  · simp_all [Event.cls]
  · split at he
    · rw [List.mem_append] at he
      rcases he with he | he
      · fin_cases he <;> simp [Event.cls]
      · exact Or.inr (log_bootstrap_error_cls w _ e he)
    · rw [List.mem_append] at he
      rcases he with he | he
      · fin_cases he <;> simp [Event.cls]
      · exact Or.inr (log_stub_reason_cls w _ e he)

theorem inject_telemetry_cnt_inject (w : World) (env : LuaEnv) :
    cnt EClass.inject (inject_telemetry w env).2 = if w.res.dofile then 1 else 0 := by
  simp only [inject_telemetry]
  split
  · simp_all [cnt_cons, cnt_nil, Event.cls, beq_iff_eq]
  · split <;>
      simp_all [cnt_append, cnt_cons, cnt_nil, Event.cls, beq_iff_eq,
        cnt_log_bootstrap_error, cnt_log_stub_reason]

/-! ### The injection step -/

theorem attempt_telemetry_injection_of_not_requested (w : World) (s : Flags) (env : LuaEnv)
    (h : s.requested = false) : attempt_telemetry_injection w s env = ⟨s, env, []⟩ := by
  simp [attempt_telemetry_injection, h]

theorem attempt_telemetry_injection_cls (w : World) (s : Flags) (env : LuaEnv) :
    ∀ e ∈ (attempt_telemetry_injection w s env).events,
      e.cls ∈ [EClass.poll, EClass.strlib, EClass.iolib, EClass.patch, EClass.register,
        EClass.other, EClass.missing, EClass.wait, EClass.inject] := by
  intro e he
  have hrt : ∀ e2 ∈ (telemetry_runtime_ready w s env).events,
      e2.cls ∈ [EClass.poll, EClass.strlib, EClass.iolib, EClass.patch, EClass.register,
        EClass.other, EClass.missing, EClass.wait, EClass.inject] := by
    intro e2 he2
    have := telemetry_runtime_ready_cls w s env e2 he2
    simp at this ⊢
    tauto
  have hit : ∀ e2 ∈ (inject_telemetry w (telemetry_runtime_ready w s env).env).2,
      e2.cls ∈ [EClass.poll, EClass.strlib, EClass.iolib, EClass.patch, EClass.register,
        EClass.other, EClass.missing, EClass.wait, EClass.inject] := by
    intro e2 he2
    have := inject_telemetry_cls w _ e2 he2
    rcases this with h | h <;> simp [h]
  simp only [attempt_telemetry_injection] at he
  split at he
  · simp at he
  · split at he
    · split at he
      · rcases List.mem_append.mp he with he2 | he2
        · rcases List.mem_cons.mp he2 with rfl | he3
          · simp [Event.cls]
          · exact hrt e he3
        · fin_cases he2
          simp [Event.cls]
      · rcases List.mem_cons.mp he with rfl | he2
        · simp [Event.cls]
        · exact hrt e he2
    · split at he
      · rcases List.mem_append.mp he with he2 | he2
        · rcases List.mem_cons.mp he2 with rfl | he3
          · simp [Event.cls]
          · rcases List.mem_append.mp he3 with he4 | he4
            · exact hrt e he4
            · fin_cases he4
              simp [Event.cls]
        · exact hit e he2
      · rcases List.mem_cons.mp he with rfl | he2
        · simp [Event.cls]
        · exact hrt e he2

theorem attempt_telemetry_injection_acct (w : World) (s : Flags) (env : LuaEnv) :
    Acct s (attempt_telemetry_injection w s env).flags
      (attempt_telemetry_injection w s env).events := by
  intro c hc
  have hrt := telemetry_runtime_ready_acct w s env c hc
  obtain ⟨hfi, hfr, hfw⟩ := telemetry_runtime_ready_frame w s env
  have hinjc : cnt c (inject_telemetry w (telemetry_runtime_ready w s env).env).2 ≤
      (if c = EClass.inject then 1 else 0) := by
    by_cases hci : c = EClass.inject
    · subst hci
      rw [inject_telemetry_cnt_inject]
      split <;> simp
    · have hz : cnt c (inject_telemetry w (telemetry_runtime_ready w s env).env).2 = 0 := by
        apply cnt_eq_zero_of_cls
        intro e he h
        have h2 := inject_telemetry_cls w _ e he
        rw [h] at h2
        rcases h2 with h2 | h2
        · exact hci h2
        · have hco : c ≠ EClass.other := by fin_cases hc <;> decide
          exact hco h2
      simp [hz, hci]
  simp only [attempt_telemetry_injection]
  split
  · simp [cnt]
  · split
    · split
      · fin_cases hc <;>
          simp_all [cnt_append, cnt_cons, cnt_nil, flagOf, Event.cls, beq_iff_eq] <;>
          omega
      · fin_cases hc <;>
          simp_all [cnt_cons, flagOf, Event.cls, beq_iff_eq] <;>
          omega
    · split
      · fin_cases hc <;>
          simp_all [cnt_append, cnt_cons, cnt_nil, flagOf, Event.cls, beq_iff_eq] <;>
          omega
      · fin_cases hc <;>
          simp_all [cnt_cons, flagOf, Event.cls, beq_iff_eq] <;>
          omega

theorem attempt_telemetry_injection_requested (w : World) (s : Flags) (env : LuaEnv) :
    (attempt_telemetry_injection w s env).flags.requested = s.requested := by
  obtain ⟨hfi, hfr, hfw⟩ := telemetry_runtime_ready_frame w s env
  simp only [attempt_telemetry_injection]
  split
  · rfl
  · split
    · split
      · simpa using hfr
      · exact hfr
    · split
      · simpa using hfr
      · exact hfr

theorem attempt_telemetry_injection_inject_requires (w : World) (s : Flags) (env : LuaEnv)
    (h : 0 < cnt EClass.inject (attempt_telemetry_injection w s env).events) :
    s.requested = true := by
  by_contra hn
  rw [attempt_telemetry_injection_of_not_requested w s env (by simpa using hn)] at h
  simp [cnt] at h

theorem attempt_telemetry_injection_injects (w : World) (s : Flags) (env : LuaEnv)
    (hreq : s.requested = true) (hinj : s.injected = false)
    (hready : (telemetry_runtime_ready w s env).ready = true)
    (hdo : w.res.dofile = true) :
    0 < cnt EClass.inject (attempt_telemetry_injection w s env).events := by
  obtain ⟨hfi, hfr, hfw⟩ := telemetry_runtime_ready_frame w s env
  have h1 := inject_telemetry_cnt_inject w (telemetry_runtime_ready w s env).env
  rw [hdo] at h1
  simp only [if_true] at h1
  simp only [attempt_telemetry_injection, hreq, hinj]
  simp only [Bool.and_self, Bool.not_false, Bool.not_true, Bool.and_true]
  rw [if_neg (by simp)]
  rw [if_neg (by simp [hready])]
  rw [if_pos (by simp [hfr, hfi, hreq, hinj])]
  simp [cnt_cons, cnt_append, h1]

/-- Injection happens only when the readiness check during the same
attempt reported ready. -/
theorem attempt_telemetry_injection_needs_ready (w : World) (s : Flags) (env : LuaEnv)
    (h : 0 < cnt EClass.inject (attempt_telemetry_injection w s env).events) :
    (telemetry_runtime_ready w s env).ready = true := by
  have hrt := telemetry_runtime_ready_acct w s env EClass.inject (by simp [trackedClasses])
  obtain ⟨hfi, hfr, hfw⟩ := telemetry_runtime_ready_frame w s env
  have hrt0 : cnt EClass.inject (telemetry_runtime_ready w s env).events = 0 := by
    simp only [flagOf, hfi] at hrt
    omega
  by_contra hn
  have hn' : (telemetry_runtime_ready w s env).ready = false := by
    simpa using hn
  simp only [attempt_telemetry_injection] at h
  split at h
  · simp [cnt] at h
  · split at h
    · split at h <;>
        simp_all [cnt_cons, cnt_append, cnt_nil, Event.cls, beq_iff_eq, hrt0]
    · simp_all

/-! ### maybe_inject and forward_lua_call -/

theorem cnt_detect (c : EClass) (hct : c ≠ EClass.trig) (b1 b2 b3 : Bool) :
    cnt c (if b1 then [Event.logFirstDetection]
      else if b2 then [Event.logAlreadyInjected]
      else if b3 then [Event.logPendingInjection] else []) = 0 := by
  cases b1 <;> cases b2 <;> cases b3 <;>
    simp [cnt_cons, cnt_nil, Event.cls, beq_iff_eq, Ne.symm hct]

theorem maybe_inject_no_fwd (w : World) (s : Flags) (env : LuaEnv)
    (f : Option String) (r : Int) :
    ∀ e ∈ (maybe_inject w s env f r).events, e.cls ≠ EClass.fwd := by
  have hat : ∀ s2, ∀ e ∈ (attempt_telemetry_injection w s2 env).events,
      e.cls ≠ EClass.fwd := by
    intro s2 e he h
    have := attempt_telemetry_injection_cls w s2 env e he
    rw [h] at this
    simp at this
  intro e he h
  simp only [maybe_inject] at he
  split at he
  · exact hat _ e he h
  · split at he
    · exact hat _ e he h
    · split at he
      · exact hat _ e he h
      · split at he
        · exact hat _ e he h
        · rcases List.mem_append.mp he with he2 | he2
          · split at he2
            · fin_cases he2
              simp [Event.cls] at h
            · split at he2
              · fin_cases he2
                simp [Event.cls] at h
              · split at he2
                · fin_cases he2
                  simp [Event.cls] at h
                · simp at he2
          · exact hat _ e he2 h

theorem maybe_inject_acct (w : World) (s : Flags) (env : LuaEnv)
    (f : Option String) (r : Int) :
    Acct s (maybe_inject w s env f r).flags (maybe_inject w s env f r).events := by
  intro c hc
  have hct : c ≠ EClass.trig := by fin_cases hc <;> decide
  have h1 := attempt_telemetry_injection_acct w s env c hc
  have h2 := attempt_telemetry_injection_acct w { s with requested := true } env c hc
  have hfl : flagOf c { s with requested := true } = flagOf c s := by
    fin_cases hc <;> simp [flagOf]
  simp only [maybe_inject]
  split
  · exact h1
  · split
    · exact h1
    · split
      · exact h1
      · split
        · exact h1
        · dsimp only
          rw [cnt_append, cnt_detect c hct]
          rw [hfl] at h2
          omega

theorem maybe_inject_requested (w : World) (s : Flags) (env : LuaEnv)
    (f : Option String) (r : Int)
    (h : (maybe_inject w s env f r).flags.requested = true) :
    s.requested = true ∨
      (∃ fn, f = some fn ∧ basename_or_self (some fn) = some TARGET_SCRIPT ∧ r = 0) := by
  simp only [maybe_inject] at h
  split at h
  · rw [attempt_telemetry_injection_requested] at h
    exact Or.inl h
  · rename_i fn
    split at h
    · rw [attempt_telemetry_injection_requested] at h
      exact Or.inl h
    · rename_i hr
      split at h
      · rw [attempt_telemetry_injection_requested] at h
        exact Or.inl h
      · rename_i bn heq
        split at h
        · rw [attempt_telemetry_injection_requested] at h
          exact Or.inl h
        · rename_i hbn
          refine Or.inr ⟨fn, rfl, ?_, ?_⟩
          · rw [heq]
            simp at hbn
            rw [hbn]
          · omega

theorem maybe_inject_inject_origin (w : World) (s : Flags) (env : LuaEnv)
    (f : Option String) (r : Int)
    (h : 0 < cnt EClass.inject (maybe_inject w s env f r).events) :
    s.requested = true ∨
      (∃ fn, f = some fn ∧ basename_or_self (some fn) = some TARGET_SCRIPT ∧ r = 0) := by
  simp only [maybe_inject] at h
  split at h
  · exact Or.inl (attempt_telemetry_injection_inject_requires w s env h)
  · rename_i fn
    split at h
    · exact Or.inl (attempt_telemetry_injection_inject_requires w s env h)
    · rename_i hr
      split at h
      · exact Or.inl (attempt_telemetry_injection_inject_requires w s env h)
      · rename_i bn heq
        split at h
        · exact Or.inl (attempt_telemetry_injection_inject_requires w s env h)
        · rename_i hbn
          refine Or.inr ⟨fn, rfl, ?_, ?_⟩
          · rw [heq]
            simp at hbn
            rw [hbn]
          · omega

theorem call_log_events_cls (w : World) (label : String) (f : Option String) (r : DoRes) :
    ∀ e ∈ call_log_events w label f r, e.cls = EClass.fwd ∨ e.cls = EClass.other := by
  intro e he
  simp only [call_log_events] at he
  split at he
  · split at he
    · rcases List.mem_append.mp he with he2 | he2
      · fin_cases he2
        simp [Event.cls]
      · split at he2
        · exact Or.inr (log_bootstrap_error_cls w _ e he2)
        · simp at he2
    · simp at he
  · simp at he

theorem cnt_call_log_events {c : EClass} (hcf : c ≠ EClass.fwd) (hco : c ≠ EClass.other)
    (w : World) (label : String) (f : Option String) (r : DoRes) :
    cnt c (call_log_events w label f r) = 0 := by
  apply cnt_eq_zero_of_cls
  intro e he h
  rcases call_log_events_cls w label f r e he with h2 | h2
  · rw [h] at h2
    exact hcf h2
  · rw [h] at h2
    exact hco h2

theorem forward_lua_call_acct (w : World) (s : Flags) (env : LuaEnv)
    (f : Option String) (label : String) :
    Acct s (forward_lua_call w s env f label).flags
      (forward_lua_call w s env f label).events := by
  intro c hc
  have hcf : c ≠ EClass.fwd := by fin_cases hc <;> decide
  have hco : c ≠ EClass.other := by fin_cases hc <;> decide
  have hm := maybe_inject_acct w s (w.dofileEff f env).env f (w.dofileEff f env).code c hc
  simp only [forward_lua_call]
  split
  · fin_cases hc <;> simp [cnt_cons, cnt_nil, Event.cls, beq_iff_eq]
  · dsimp only
    rw [cnt_append, cnt_call_log_events hcf hco]
    omega

theorem forward_lua_call_inject_origin (w : World) (s : Flags) (env : LuaEnv)
    (f : Option String) (label : String)
    (h : 0 < cnt EClass.inject (forward_lua_call w s env f label).events) :
    s.requested = true ∨
      (∃ fn, f = some fn ∧ basename_or_self (some fn) = some TARGET_SCRIPT ∧
        (forward_lua_call w s env f label).result = 0) := by
  simp only [forward_lua_call] at h ⊢
  split at h
  · simp [cnt_cons, cnt_nil, Event.cls, beq_iff_eq, cnt] at h
  · dsimp only at h
    rw [cnt_append, cnt_call_log_events (by decide) (by decide)] at h
    simp only [Nat.zero_add] at h
    split
    · simp_all
    · dsimp only
      exact maybe_inject_inject_origin w s _ f _ h

theorem forward_lua_call_requested_origin (w : World) (s : Flags) (env : LuaEnv)
    (f : Option String) (label : String)
    (h : (forward_lua_call w s env f label).flags.requested = true) :
    s.requested = true ∨
      (∃ fn, f = some fn ∧ basename_or_self (some fn) = some TARGET_SCRIPT ∧
        (forward_lua_call w s env f label).result = 0) := by
  simp only [forward_lua_call] at h ⊢
  split at h
  · exact Or.inl h
  · dsimp only at h
    split
    · simp_all
    · dsimp only
      exact maybe_inject_requested w s _ f _ h

/-! ### Run-level lemmas -/

theorem hookTrace_acct (w : World) :
    ∀ (inputs : List (Option String)) (s : Flags) (env : LuaEnv),
      ∃ s', Acct s s' (hookTrace w s env inputs) := by
  intro inputs
  induction inputs with
  | nil =>
    intro s env
    exact ⟨s, acct_nil s⟩
  | cons f rest ih =>
    intro s env
    obtain ⟨s', h2⟩ := ih (lua_dofile w s env f).flags (lua_dofile w s env f).env
    refine ⟨s', ?_⟩
    intro c hc
    have h1 := forward_lua_call_acct w s env f "lua_dofile" c hc
    have h2c := h2 c hc
    simp only [lua_dofile] at h2c ⊢
    simp only [hookTrace, lua_dofile, cnt_append]
    omega

theorem hookTrace_cnt_le_one (w : World) (env : LuaEnv) (inputs : List (Option String))
    (c : EClass) (hc : c ∈ trackedClasses) :
    cnt c (hookTrace w initFlags env inputs) ≤ 1 := by
  obtain ⟨s', h⟩ := hookTrace_acct w inputs initFlags env
  have hcc := h c hc
  have h0 : flagOf c initFlags = false := by fin_cases hc <;> rfl
  rw [h0] at hcc
  have h1 : (flagOf c s').toNat ≤ 1 := by cases flagOf c s' <;> simp
  omega

theorem function_exists_false (w : World)
    (h : w.res.getglobal = false ∨ w.res.isfunction = false)
    (env : LuaEnv) (name : String) : function_exists w env name = false := by
  rcases h with h | h <;> simp [function_exists, h]

theorem telemetry_runtime_ready_false (w : World)
    (h : w.res.getglobal = false ∨ w.res.isfunction = false)
    (s : Flags) (env : LuaEnv) : (telemetry_runtime_ready w s env).ready = false := by
  rw [telemetry_runtime_ready_ready]
  simp [function_exists_false w h]

theorem attempt_telemetry_injection_no_inject (w : World)
    (h : w.res.getglobal = false ∨ w.res.isfunction = false)
    (s : Flags) (env : LuaEnv) :
    cnt EClass.inject (attempt_telemetry_injection w s env).events = 0 := by
  by_contra hn
  have hpos : 0 < cnt EClass.inject (attempt_telemetry_injection w s env).events := by
    omega
  have := attempt_telemetry_injection_needs_ready w s env hpos
  rw [telemetry_runtime_ready_false w h s env] at this
  exact Bool.false_ne_true this

theorem maybe_inject_no_inject (w : World)
    (h : w.res.getglobal = false ∨ w.res.isfunction = false)
    (s : Flags) (env : LuaEnv) (f : Option String) (r : Int) :
    cnt EClass.inject (maybe_inject w s env f r).events = 0 := by
  have hct : EClass.inject ≠ EClass.trig := by decide
  simp only [maybe_inject]
  split
  · exact attempt_telemetry_injection_no_inject w h s env
  · split
    · exact attempt_telemetry_injection_no_inject w h s env
    · split
      · exact attempt_telemetry_injection_no_inject w h s env
      · split
        · exact attempt_telemetry_injection_no_inject w h s env
        · dsimp only
          rw [cnt_append, cnt_detect _ hct,
            attempt_telemetry_injection_no_inject w h _ env]

theorem forward_lua_call_no_inject (w : World)
    (h : w.res.getglobal = false ∨ w.res.isfunction = false)
    (s : Flags) (env : LuaEnv) (f : Option String) (label : String) :
    cnt EClass.inject (forward_lua_call w s env f label).events = 0 := by
  simp only [forward_lua_call]
  split
  · simp [cnt_cons, cnt_nil, Event.cls, beq_iff_eq, cnt]
  · dsimp only
    rw [cnt_append, cnt_call_log_events (by decide) (by decide),
      maybe_inject_no_inject w h]

theorem hookTrace_no_inject (w : World)
    (h : w.res.getglobal = false ∨ w.res.isfunction = false) :
    ∀ (inputs : List (Option String)) (s : Flags) (env : LuaEnv),
      cnt EClass.inject (hookTrace w s env inputs) = 0 := by
  intro inputs
  induction inputs with
  | nil =>
    intro s env
    rfl
  | cons f rest ih =>
    intro s env
    simp only [hookTrace, lua_dofile, cnt_append]
    rw [ih]
    have := forward_lua_call_no_inject w h s env f "lua_dofile"
    simp only [lua_dofile] at this
    omega

/-- Injection on one call needs either an already-recorded trigger or a
trigger on this very call. -/
theorem maybe_inject_injects (w : World) (s : Flags) (env : LuaEnv)
    (f : Option String) (r : Int)
    (hreq : s.requested = true) (hinj : s.injected = false)
    (hready : (telemetry_runtime_ready w s env).ready = true)
    (hdo : w.res.dofile = true) :
    0 < cnt EClass.inject (maybe_inject w s env f r).events := by
  have hct : EClass.inject ≠ EClass.trig := by decide
  have hbase := attempt_telemetry_injection_injects w s env hreq hinj hready hdo
  have hs1 : { s with requested := true } = s := by
    obtain ⟨i, rq, wl, mg, sl, sp, io, nr⟩ := s
    simp at hreq
    simp [hreq]
  simp only [maybe_inject]
  split
  · exact hbase
  · split
    · exact hbase
    · split
      · exact hbase
      · split
        · exact hbase
        · dsimp only
          rw [cnt_append, cnt_detect _ hct, hs1]
          omega

theorem forward_lua_call_injects (w : World) (s : Flags) (env : LuaEnv)
    (f : Option String) (label : String)
    (hdo : w.res.dofile = true) (hreq : s.requested = true) (hinj : s.injected = false)
    (hready : (telemetry_runtime_ready w s (w.dofileEff f env).env).ready = true) :
    0 < cnt EClass.inject (forward_lua_call w s env f label).events := by
  simp only [forward_lua_call]
  rw [if_neg (by simp [hdo])]
  dsimp only
  rw [cnt_append]
  have := maybe_inject_injects w s (w.dofileEff f env).env f (w.dofileEff f env).code
    hreq hinj hready hdo
  omega

/-- Temporal origin of injection along a run: any call whose trace
contains the injection was preceded (or accompanied) by a
trigger-success call, unless the trigger was already recorded at the
start of the run. -/
theorem runCalls_inject_origin (w : World) :
    ∀ (inputs : List (Option String)) (s : Flags) (env : LuaEnv) (i : Nat) (rec : CallRec),
      (runCalls w s env inputs).get? i = some rec →
      0 < cnt EClass.inject rec.events →
      s.requested = true ∨
        ∃ j, j ≤ i ∧ ∃ rec2, (runCalls w s env inputs).get? j = some rec2 ∧ TrigSuccess rec2 := by
  intro inputs
  induction inputs with
  | nil =>
    intro s env i rec hget
    simp [runCalls] at hget
  | cons f rest ih =>
    intro s env i rec hget h
    cases i with
    | zero =>
      have hrec : rec = ⟨f, (lua_dofile w s env f).result, (lua_dofile w s env f).events⟩ := by
        simp only [runCalls, List.get?_cons_zero] at hget
        exact (Option.some.injEq _ _ ▸ hget).symm
      subst hrec
      have horigin := forward_lua_call_inject_origin w s env f "lua_dofile"
        (by simpa [lua_dofile] using h)
      rcases horigin with hreq | ⟨fn, hfn, hb, hres⟩
      · exact Or.inl hreq
      · refine Or.inr ⟨0, Nat.le_refl 0,
          ⟨f, (lua_dofile w s env f).result, (lua_dofile w s env f).events⟩, ?_, ?_⟩
        · simp [runCalls]
        · exact ⟨fn, hfn, hb, by simpa [lua_dofile] using hres⟩
    | succ i' =>
      have hget' : (runCalls w (lua_dofile w s env f).flags (lua_dofile w s env f).env rest).get? i' = some rec := by
        simpa [runCalls] using hget
      rcases ih (lua_dofile w s env f).flags (lua_dofile w s env f).env i' rec hget' h with
        hreq | ⟨j, hjle, rec2, hg2, htr⟩
      · rcases forward_lua_call_requested_origin w s env f "lua_dofile"
          (by simpa [lua_dofile] using hreq) with hreq0 | ⟨fn, hfn, hb, hres⟩
        · exact Or.inl hreq0
        · refine Or.inr ⟨0, Nat.zero_le _,
            ⟨f, (lua_dofile w s env f).result, (lua_dofile w s env f).events⟩, ?_, ?_⟩
          · simp [runCalls]
          · exact ⟨fn, hfn, hb, by simpa [lua_dofile] using hres⟩
      · refine Or.inr ⟨j + 1, by omega, rec2, ?_, htr⟩
        simpa [runCalls] using hg2

/-! ### The claims -/

/-- C1: for every sequence of intercepted lua_dofile calls in one process
lifetime, the auxiliary (telemetry) script is invoked at most once: only
the caller that observes requested and not-injected flips injected and
performs the injection call, and no later call ever performs it again. -/
theorem claim_C1_injection_at_most_once (w : World) (env : LuaEnv)
    (inputs : List (Option String)) :
    cnt EClass.inject (hookTrace w initFlags env inputs) ≤ 1 :=
  hookTrace_cnt_le_one w env inputs EClass.inject (by decide)

/-- C2: in every sequence of intercepted calls, injection of the auxiliary
script never occurs before at least one earlier (or the same) intercepted
call had a non-null argument whose basename equals "_system.lua" and
returned result 0. -/
theorem claim_C2_trigger_precedes_injection (w : World) (env : LuaEnv)
    (inputs : List (Option String)) (i : Nat) (rec : CallRec)
    (hget : (runCalls w initFlags env inputs).get? i = some rec)
    (hinj : 0 < cnt EClass.inject rec.events) :
    ∃ j, j ≤ i ∧ ∃ rec2,
      (runCalls w initFlags env inputs).get? j = some rec2 ∧ TrigSuccess rec2 := by
  rcases runCalls_inject_origin w inputs initFlags env i rec hget hinj with hreq | h
  · exact absurd hreq (by simp [initFlags])
  · exact h

theorem claim_C2_witness :
    ∃ j, j ≤ 0 ∧ ∃ rec2,
      (runCalls w0 initFlags env0 [some "_system.lua"]).get? j = some rec2 ∧
        TrigSuccess rec2 :=
  claim_C2_trigger_precedes_injection w0 env0 [some "_system.lua"] 0
    (((runCalls w0 initFlags env0 [some "_system.lua"]).get? 0).getD ⟨none, 0, []⟩)
    (by decide) (by decide)

/-- C3: injection never occurs on a call during which any of the three
required globals fails to resolve to a callable value; once the trigger is
recorded and all three resolve, the next intercepted call, whatever its
argument, performs the injection. -/
theorem claim_C3_injection_needs_and_follows_readiness (w : World) (s : Flags)
    (env : LuaEnv) (f : Option String) (label : String) :
    (0 < cnt EClass.inject (attempt_telemetry_injection w s env).events →
      function_exists w (telemetry_runtime_ready w s env).env "strsub" = true ∧
      function_exists w (telemetry_runtime_ready w s env).env "strbyte" = true ∧
      function_exists w (telemetry_runtime_ready w s env).env "strformat" = true) ∧
    (w.res.dofile = true → s.requested = true → s.injected = false →
      (telemetry_runtime_ready w s (w.dofileEff f env).env).ready = true →
      0 < cnt EClass.inject (forward_lua_call w s env f label).events) := by
  constructor
  · intro h
    have hready := attempt_telemetry_injection_needs_ready w s env h
    rw [telemetry_runtime_ready_ready] at hready
    rw [telemetry_runtime_ready_env]
    simp only [Bool.and_eq_true] at hready
    exact ⟨hready.1.1, hready.1.2, hready.2⟩
  · intro hdo hreq hinj hready
    exact forward_lua_call_injects w s env f label hdo hreq hinj hready

theorem claim_C3_witness :
    ((function_exists w0 (telemetry_runtime_ready w0 sReq env0).env "strsub" = true ∧
      function_exists w0 (telemetry_runtime_ready w0 sReq env0).env "strbyte" = true ∧
      function_exists w0 (telemetry_runtime_ready w0 sReq env0).env "strformat" = true) ∧
      0 < cnt EClass.inject
        (forward_lua_call w0 sReq env0 (some "x.lua") "lua_dofile").events) := by
  have h := claim_C3_injection_needs_and_follows_readiness w0 sReq env0 (some "x.lua") "lua_dofile"
  exact ⟨h.1 (by decide), h.2 (by decide) (by decide) (by decide) (by decide)⟩

/-- C4: the readiness check returns true iff every name in the Required
Global Set currently (at check time, after the bootstrapping side effects)
resolves in the interpreter's global namespace to a value for which the
is-function predicate holds. -/
theorem claim_C4_ready_iff_required_globals (w : World) (s : Flags) (env : LuaEnv) :
    (telemetry_runtime_ready w s env).ready = true ↔
      ∀ name ∈ requiredGlobals,
        function_exists w (ensure_string_primitives w s env).env name = true := by
  rw [telemetry_runtime_ready_ready]
  constructor
  · intro h name hname
    simp only [Bool.and_eq_true] at h
    simp only [requiredGlobals] at hname
    fin_cases hname
    · exact h.1.1
    · exact h.1.2
    · exact h.2
  · intro h
    simp only [Bool.and_eq_true]
    exact ⟨⟨h _ (by simp [requiredGlobals]), h _ (by simp [requiredGlobals])⟩,
      h _ (by simp [requiredGlobals])⟩

/-- C5: each flag-guarded one-shot action (string-library open, io-library
open, compatibility patch, native-helper registration, and the waiting
diagnostic line) happens at most once per process lifetime. -/
theorem claim_C5_one_shot_actions (w : World) (env : LuaEnv)
    (inputs : List (Option String)) :
    cnt EClass.strlib (hookTrace w initFlags env inputs) ≤ 1 ∧
    cnt EClass.iolib (hookTrace w initFlags env inputs) ≤ 1 ∧
    cnt EClass.patch (hookTrace w initFlags env inputs) ≤ 1 ∧
    cnt EClass.register (hookTrace w initFlags env inputs) ≤ 1 ∧
    cnt EClass.wait (hookTrace w initFlags env inputs) ≤ 1 :=
  ⟨hookTrace_cnt_le_one w env inputs EClass.strlib (by decide),
   hookTrace_cnt_le_one w env inputs EClass.iolib (by decide),
   hookTrace_cnt_le_one w env inputs EClass.patch (by decide),
   hookTrace_cnt_le_one w env inputs EClass.register (by decide),
   hookTrace_cnt_le_one w env inputs EClass.wait (by decide)⟩

/-- C6: the native file-write helper reports 1 iff the write transferred
the full byte length and the file closed without error, reports 0
otherwise, and on a missing content argument it fails without ever
attempting to open a file. -/
theorem claim_C6_native_write_contract (fs : FSModel) (p c m : LuaParam) :
    ((telemetry_native_write fs p c m).result = 1 ↔
      ((∃ n, (telemetry_native_write fs p c m).wrote = some (n, n)) ∧
        (telemetry_native_write fs p c m).closed = some true)) ∧
    ((telemetry_native_write fs p c m).result = 0 ∨
      (telemetry_native_write fs p c m).result = 1) ∧
    (c = LuaParam.noobject →
      (telemetry_native_write fs p c m).result = 0 ∧
      (telemetry_native_write fs p c m).openAttempted = false) := by
  rcases p with _ | ⟨pb, pv⟩ <;> rcases c with _ | ⟨cb, cv⟩
  · simp [telemetry_native_write]
  · simp [telemetry_native_write]
  · simp [telemetry_native_write]
  · cases pb <;> cases cb
    · simp [telemetry_native_write, luaIsString]
    · simp [telemetry_native_write, luaIsString]
    · simp [telemetry_native_write, luaIsString]
    · by_cases hp : pv = ""
      · simp [telemetry_native_write, luaIsString, luaGetString, hp]
      · by_cases ho : fs.openOk pv (lua_mode_arg m) = true
        · by_cases hw : fs.written pv (lua_mode_arg m) cv = cv.length <;>
            by_cases hc2 : fs.closeOk pv (lua_mode_arg m) = true <;>
            simp [telemetry_native_write, luaIsString, luaGetString, hp, ho, hw, hc2]
          all_goals omega
        · simp [telemetry_native_write, luaIsString, luaGetString, hp, ho]

theorem claim_C6_witness :
    (telemetry_native_write fs0 (LuaParam.obj true "f.txt") LuaParam.noobject
        LuaParam.noobject).result = 0 ∧
    (telemetry_native_write fs0 (LuaParam.obj true "f.txt") LuaParam.noobject
        LuaParam.noobject).openAttempted = false :=
  (claim_C6_native_write_contract fs0 (LuaParam.obj true "f.txt") LuaParam.noobject
    LuaParam.noobject).2.2 rfl

/-- C7: when the real entry point is unresolved, every intercepted call
logs the failure and returns -1 without touching interpreter state or
flags; otherwise the interceptor returns exactly the result code produced
by the real entry point for the original argument. -/
theorem claim_C7_fail_closed_and_transparent (w : World) (s : Flags) (env : LuaEnv)
    (f : Option String) (label : String) :
    (forward_lua_call w s env f label).result =
      (if w.res.dofile = true then (w.dofileEff f env).code else -1) ∧
    (forward_lua_call w s env f label).env =
      (if w.res.dofile = true then (forward_lua_call w s env f label).env else env) ∧
    (forward_lua_call w s env f label).flags =
      (if w.res.dofile = true then (forward_lua_call w s env f label).flags else s) ∧
    (forward_lua_call w s env f label).events =
      (if w.res.dofile = true then (forward_lua_call w s env f label).events
        else [Event.logNoRealImpl label]) := by
  by_cases hdo : w.res.dofile = true
  · simp [forward_lua_call, hdo]
  · have hdo' : w.res.dofile = false := by simpa using hdo
    simp [forward_lua_call, hdo']

/-- C8 counterexample: on a successful call with argument "other.lua" and
no trigger recorded, no trigger is recorded and no injection is attempted
(as claimed), but readiness is NOT polled — attempt_telemetry_injection
returns before calling telemetry_runtime_ready, contradicting the claim
that readiness is still polled opportunistically on that call. -/
theorem claim_C8_counterexample :
    (maybe_inject w0 initFlags env0 (some "other.lua") 0).flags.requested = false ∧
    cnt EClass.inject (maybe_inject w0 initFlags env0 (some "other.lua") 0).events = 0 ∧
    cnt EClass.poll (maybe_inject w0 initFlags env0 (some "other.lua") 0).events = 0 := by
  decide

/-- C8 amended: after an intercepted call whose argument's basename does
not match the trigger identity and with no trigger previously recorded,
no trigger is recorded, no injection is attempted, no log line is emitted,
and readiness is not polled (polling happens only while an injection is
pending): the state-machine step is a no-op. -/
theorem claim_C8_amended_idle_nontrigger_noop (w : World) (s : Flags) (env : LuaEnv)
    (fn : String) (r : Int) (hreq : s.requested = false)
    (hbn : basename_or_self (some fn) ≠ some TARGET_SCRIPT) :
    maybe_inject w s env (some fn) r = ⟨s, env, []⟩ := by
  simp only [maybe_inject]
  split
  · exact attempt_telemetry_injection_of_not_requested w s env hreq
  · split
    · exact attempt_telemetry_injection_of_not_requested w s env hreq
    · split
      · exact attempt_telemetry_injection_of_not_requested w s env hreq
      · rename_i bn heq hb
        exfalso
        apply hbn
        rw [heq]
        simp only [ne_eq, Decidable.not_not] at hb
        rw [hb]

theorem claim_C8_amended_witness :
    maybe_inject w0 initFlags env0 (some "other.lua") 7 = ⟨initFlags, env0, []⟩ :=
  claim_C8_amended_idle_nontrigger_noop w0 initFlags env0 "other.lua" 7 rfl (by decide)

/-- C9 counterexample: with the real entry point resolved, an intercepted
call with a NULL filename (and likewise an empty one) produces no log line
at all, contradicting the claim that the interceptor logs one line for
every argument value including a null or empty filename. -/
theorem claim_C9_counterexample :
    (forward_lua_call w0 initFlags env0 none "lua_dofile").events = [] ∧
    (forward_lua_call w0 initFlags env0 (some "") "lua_dofile").events = [] := by
  decide

/-- C9 amended: on every intercepted call for which the real entry point
is resolved, the interceptor logs exactly one call line containing the
entry-point name, the argument, and the result code when the argument is
non-null and non-empty; calls with a null or empty filename are not
logged. -/
theorem claim_C9_amended_call_logging (w : World) (s : Flags) (env : LuaEnv)
    (label : String) (fn : String) (hdo : w.res.dofile = true) (hfn : fn ≠ "") :
    cnt EClass.fwd (forward_lua_call w s env (some fn) label).events = 1 ∧
    Event.logCallResult label fn (forward_lua_call w s env (some fn) label).result ∈
      (forward_lua_call w s env (some fn) label).events ∧
    cnt EClass.fwd (forward_lua_call w s env none label).events = 0 ∧
    cnt EClass.fwd (forward_lua_call w s env (some "") label).events = 0 := by
  have hmz : ∀ env2 f r, cnt EClass.fwd (maybe_inject w s env2 f r).events = 0 :=
    fun env2 f r => cnt_eq_zero_of_cls (maybe_inject_no_fwd w s env2 f r)
  refine ⟨?_, ?_, ?_, ?_⟩
  · simp only [forward_lua_call]
    rw [if_neg (by simp [hdo])]
    dsimp only
    rw [cnt_append, hmz]
    simp only [call_log_events]
    rw [if_pos hfn]
    split <;>
      simp [cnt_append, cnt_cons, cnt_nil, Event.cls, beq_iff_eq,
        cnt_log_bootstrap_error]
  · simp only [forward_lua_call]
    rw [if_neg (by simp [hdo])]
    dsimp only
    apply List.mem_append_left
    simp only [call_log_events]
    rw [if_pos hfn]
    exact List.mem_append_left _ (List.mem_singleton.mpr rfl)
  · simp only [forward_lua_call]
    rw [if_neg (by simp [hdo])]
    dsimp only
    rw [cnt_append, hmz]
    simp [call_log_events, cnt_nil]
  · simp only [forward_lua_call]
    rw [if_neg (by simp [hdo])]
    dsimp only
    rw [cnt_append, hmz]
    simp [call_log_events, cnt_nil]

theorem claim_C9_amended_witness :
    cnt EClass.fwd (forward_lua_call w0 initFlags env0 (some "a.lua") "lua_dofile").events = 1 ∧
    Event.logCallResult "lua_dofile" "a.lua"
        (forward_lua_call w0 initFlags env0 (some "a.lua") "lua_dofile").result ∈
      (forward_lua_call w0 initFlags env0 (some "a.lua") "lua_dofile").events ∧
    cnt EClass.fwd (forward_lua_call w0 initFlags env0 none "lua_dofile").events = 0 ∧
    cnt EClass.fwd (forward_lua_call w0 initFlags env0 (some "") "lua_dofile").events = 0 :=
  claim_C9_amended_call_logging w0 initFlags env0 "lua_dofile" "a.lua" rfl (by decide)

/-- C10: if the global-lookup or is-function companion entry point is
unresolved, function_exists is false for every name, the readiness check
is false on every poll, and the auxiliary script is never injected in that
process, regardless of how many trigger-matching calls succeed. -/
theorem claim_C10_unresolved_companions_block_injection (w : World)
    (h : w.res.getglobal = false ∨ w.res.isfunction = false) :
    (∀ env name, function_exists w env name = false) ∧
    (∀ s env, (telemetry_runtime_ready w s env).ready = false) ∧
    (∀ env inputs, cnt EClass.inject (hookTrace w initFlags env inputs) = 0) :=
  ⟨fun env name => function_exists_false w h env name,
   fun s env => telemetry_runtime_ready_false w h s env,
   fun env inputs => hookTrace_no_inject w h inputs initFlags env⟩

theorem claim_C10_witness :
    (∀ env name, function_exists wNoGetglobal env name = false) ∧
    (∀ s env, (telemetry_runtime_ready wNoGetglobal s env).ready = false) ∧
    (∀ env inputs,
      cnt EClass.inject (hookTrace wNoGetglobal initFlags env inputs) = 0) :=
  claim_C10_unresolved_companions_block_injection wNoGetglobal (Or.inl (by decide))

end GrimHook
